import Mathlib

/-!
# Verification of the local-llm chat/web-server core

Shallow embedding of the parts of the `rslavin/local-llm` repository that the
frozen claims are about:

* `src/web/server.py` — the `WebServer` class: `send_message` (frame encoding
  and outbound enqueue), `websocket_listener` (frame decoding and dispatch),
  and `on_websocket` (connection setup, queue drain, sender loop);
* `src/__main__.py` — the interactive chat loop and the `on_interrupt`
  Ctrl+C handler.

Machine integers are modelled as `Nat`; `struct.pack`/`unpack` with the
network-order format `!QQHHIII` is modelled by explicit big-endian byte
lists.  Python's monotonic float clock (`time.perf_counter`) is modelled
over `ℚ`, where the literals `2.0` and `0.5` of the source are exact.
-/

set_option autoImplicit false

namespace LocalLLM

/-! ## Big-endian byte encoding (model of `struct.pack`/`unpack_from`) -/

/-- Big-endian encoding of `n` into exactly `w` bytes, most significant
byte first — the encoding `struct.pack` uses for each field under the
network byte-order flag. -/
def beBytes : Nat → Nat → List Nat
  | 0, _ => []
  | w + 1, n => (n / 256 ^ w) % 256 :: beBytes w n

/-- Big-endian decoding of a byte string back to a natural number. -/
def beToNat (bs : List Nat) : Nat :=
  bs.foldl (fun acc b => acc * 256 + b) 0

theorem beBytes_length (w n : Nat) : (beBytes w n).length = w := by
  induction w generalizing n with
  | zero => rfl
  | succ w ih => simp [beBytes, ih]

theorem beToNat_foldl (w n a : Nat) :
    (beBytes w n).foldl (fun acc b => acc * 256 + b) a = a * 256 ^ w + n % 256 ^ w := by
  induction w generalizing a with
  | zero => simp [beBytes, Nat.mod_one]
  | succ w ih =>
    simp only [beBytes, List.foldl_cons, ih]
    have hsplit : n % 256 ^ (w + 1) = n / 256 ^ w % 256 * 256 ^ w + n % 256 ^ w := by
      rw [Nat.pow_succ, Nat.mod_mul]
      ring
    rw [hsplit, Nat.pow_succ]
    ring

/-- Round-trip of the big-endian field encoding for in-range values. -/
theorem beToNat_beBytes (w n : Nat) (h : n < 256 ^ w) :
    beToNat (beBytes w n) = n := by
  have := beToNat_foldl w n 0
  simpa [beToNat, Nat.mod_eq_of_lt h] using this

/-! ## Frame encoding (`WebServer.send_message`)

`send_message` packs the 32-byte header
`struct.pack('!QQHHIII', msg_count_tx, int(timestamp), 42, type, len(payload), 0, 0)`
and appends the payload. -/

/-- The byte string `send_message` enqueues: the packed `!QQHHIII` header
(sequence id, timestamp in ms, magic 42, message type, payload size, two
unused 32-bit paddings) followed by the payload bytes. -/
def send_message_frame (msg_count_tx timestamp ty : Nat) (payload : List Nat) : List Nat :=
  beBytes 8 msg_count_tx ++ beBytes 8 timestamp ++ beBytes 2 42 ++ beBytes 2 ty ++
    beBytes 4 payload.length ++ beBytes 4 0 ++ beBytes 4 0 ++ payload

/-- Outbound side of the `WebServer` state: the running transmit counter
and the `ws_queue` (a FIFO of already-framed byte strings). -/
structure TxState where
  msg_count_tx : Nat
  ws_queue : List (List Nat)
  deriving Repr, DecidableEq

/-- `send_message`: frame the payload with the current transmit counter,
put the frame on `ws_queue`, and increment `msg_count_tx`. -/
def send_message (st : TxState) (payload : List Nat) (ty timestamp : Nat) : TxState :=
  { msg_count_tx := st.msg_count_tx + 1
    ws_queue := st.ws_queue ++ [send_message_frame st.msg_count_tx timestamp ty payload] }

/-! ## Frame decoding (`WebServer.websocket_listener`) -/

/-- `struct.unpack_from` of one field: `w` bytes starting at byte offset
`off`, interpreted big-endian. -/
def unpackField (msg : List Nat) (off w : Nat) : Nat :=
  beToNat ((msg.drop off).take w)

/-- One incoming websocket message: `websockets` delivers either a text
string or a binary byte string. -/
inductive WsIncoming where
  | textMsg (s : String)
  | binMsg (bytes : List Nat)
  deriving Repr, DecidableEq

/-- Python's strict `bytes.decode('utf-8')` (RFC 3629): the decoded code
points, or `none` where CPython raises `UnicodeDecodeError` — invalid
lead bytes (0x80–0xC1, 0xF5–0xFF), truncated or malformed continuation
bytes, overlong encodings (via the 0xE0/0xF0 lower bounds), surrogates
(via the 0xED upper bound) and code points past 0x10FFFF (via the 0xF4
upper bound). -/
def utf8Decode : List Nat → Option (List Nat)
  | [] => some []
  | b :: rest =>
    if b < 128 then
      (utf8Decode rest).map (fun cps => b :: cps)
    else if b < 194 then none
    else if b < 224 then
      match rest with
      | b2 :: rest2 =>
        if 128 ≤ b2 ∧ b2 < 192 then
          (utf8Decode rest2).map (fun cps => ((b - 192) * 64 + (b2 - 128)) :: cps)
        else none
      | [] => none
    else if b < 240 then
      match rest with
      | b2 :: b3 :: rest3 =>
        if ((if b = 224 then 160 else 128) ≤ b2 ∧ b2 < (if b = 237 then 160 else 192)) ∧
            (128 ≤ b3 ∧ b3 < 192) then
          (utf8Decode rest3).map (fun cps =>
            ((b - 224) * 4096 + (b2 - 128) * 64 + (b3 - 128)) :: cps)
        else none
      | _ => none
    else if b < 245 then
      match rest with
      | b2 :: b3 :: b4 :: rest4 =>
        if ((if b = 240 then 144 else 128) ≤ b2 ∧ b2 < (if b = 244 then 144 else 192)) ∧
            (128 ≤ b3 ∧ b3 < 192) ∧ (128 ≤ b4 ∧ b4 < 192) then
          (utf8Decode rest4).map (fun cps =>
            ((b - 240) * 262144 + (b2 - 128) * 4096 + (b3 - 128) * 64 + (b4 - 128)) :: cps)
        else none
      | _ => none
    else none

/-- What the listener passes to `self.on_message` as the payload, after
the type-directed conversion: a parsed JSON value for type 0 (`J` keeps
the result of Python's `json.loads` opaque), the decoded text (as code
points) for type 1, and the raw bytes for binary types. -/
inductive MsgPayload (J : Type) where
  | jsonVal (j : J)
  | textVal (cps : List Nat)
  | binVal (b : List Nat)
  deriving Repr, DecidableEq

/-- The argument triple the listener hands to `self.on_message`:
converted payload, message type, timestamp. -/
structure RxDelivery (J : Type) where
  payload : MsgPayload J
  msg_type : Nat
  timestamp : Nat
  deriving Repr, DecidableEq

/-- How one listener iteration ends: `dropped` — the frame is logged and
the loop `continue`s; `delivered d` — `self.on_message` is called with
`d`; `raised` — an uncaught exception escapes the loop (the payload
conversion failed), so `on_message` is never called and the listener
thread dies. -/
inductive ListenerOutcome (J : Type) where
  | dropped
  | delivered (d : RxDelivery J)
  | raised
  deriving Repr, DecidableEq

/-- One iteration of the `websocket_listener` receive loop, acting on the
expected-sequence counter `msg_count_rx`.  `json_loads` models Python's
`json.loads` (standard library, external to this repository): `none`
where it raises.  Returns the new counter and the outcome:

* a text-mode message is logged and dropped;
* a message of at most `header_size = 32` bytes is logged and dropped;
* a header whose magic differs from 42 is logged and dropped;
* an out-of-order `msg_id` resets the counter to the received id
  (then the counter is incremented as usual);
* a `payload_size` that disagrees with the actual trailing length is only
  logged — processing continues;
* a type-0 payload goes through `json.loads`, a type-1 payload through
  `bytes.decode('utf-8')` — with no try/except, so a conversion failure
  raises (after the counter update) and the frame is never delivered;
  binary payloads (type ≥ 2) are delivered as-is. -/
def websocket_listener_step {J : Type} (json_loads : List Nat → Option J)
    (msg_count_rx : Nat) (msg : WsIncoming) : Nat × ListenerOutcome J :=
  match msg with
  | .textMsg _ => (msg_count_rx, ListenerOutcome.dropped)
  | .binMsg bytes =>
    if bytes.length ≤ 32 then (msg_count_rx, ListenerOutcome.dropped)
    else
      let msg_id := unpackField bytes 0 8
      let timestamp := unpackField bytes 8 8
      let magic_number := unpackField bytes 16 2
      let msg_type := unpackField bytes 18 2
      if magic_number ≠ 42 then (msg_count_rx, ListenerOutcome.dropped)
      else
        let rx := (if msg_id ≠ msg_count_rx then msg_id else msg_count_rx) + 1
        let payload := bytes.drop 32
        if msg_type = 0 then
          match json_loads payload with
          | some j =>
            (rx, ListenerOutcome.delivered ⟨MsgPayload.jsonVal j, msg_type, timestamp⟩)
          | none => (rx, ListenerOutcome.raised)
        else if msg_type = 1 then
          match utf8Decode payload with
          | some cps =>
            (rx, ListenerOutcome.delivered ⟨MsgPayload.textVal cps, msg_type, timestamp⟩)
          | none => (rx, ListenerOutcome.raised)
        else
          (rx, ListenerOutcome.delivered ⟨MsgPayload.binVal payload, msg_type, timestamp⟩)

/-! ### Header layout of an encoded frame -/

theorem drop_append_ge (l₁ l₂ : List Nat) (n m : Nat) (h : l₁.length = n) :
    (l₁ ++ l₂).drop (n + m) = l₂.drop m := by
  subst h; rw [List.drop_append]

/-- Reading every header field of a `send_message` frame back with
`struct.unpack_from('!QQHHIII', ...)` recovers the packed values, the
reserved bytes are zero, and the payload sits immediately after the
32-byte header. -/
theorem send_message_frame_fields (seq ts ty : Nat) (p : List Nat)
    (hseq : seq < 2 ^ 64) (hts : ts < 2 ^ 64) (hty : ty < 2 ^ 16)
    (hp : p.length < 2 ^ 32) :
    unpackField (send_message_frame seq ts ty p) 0 8 = seq ∧
    unpackField (send_message_frame seq ts ty p) 8 8 = ts ∧
    unpackField (send_message_frame seq ts ty p) 16 2 = 42 ∧
    unpackField (send_message_frame seq ts ty p) 18 2 = ty ∧
    unpackField (send_message_frame seq ts ty p) 20 4 = p.length ∧
    ((send_message_frame seq ts ty p).drop 24).take 8 = List.replicate 8 0 ∧
    (send_message_frame seq ts ty p).drop 32 = p ∧
    (send_message_frame seq ts ty p).length = 32 + p.length := by
  have hseq8 : seq < 256 ^ 8 := by
    have h : (2:Nat) ^ 64 = 256 ^ 8 := by norm_num
    rwa [h] at hseq
  have hts8 : ts < 256 ^ 8 := by
    have h : (2:Nat) ^ 64 = 256 ^ 8 := by norm_num
    rwa [h] at hts
  have hty2 : ty < 256 ^ 2 := by
    have h : (2:Nat) ^ 16 = 256 ^ 2 := by norm_num
    rwa [h] at hty
  have hp4 : p.length < 256 ^ 4 := by
    have h : (2:Nat) ^ 32 = 256 ^ 4 := by norm_num
    rwa [h] at hp
  have lb1 : (beBytes 8 seq).length = 8 := beBytes_length 8 seq
  have lb2 : (beBytes 8 ts).length = 8 := beBytes_length 8 ts
  have lb3 : (beBytes 2 42).length = 2 := beBytes_length 2 42
  have lb4 : (beBytes 2 ty).length = 2 := beBytes_length 2 ty
  have lb5 : (beBytes 4 p.length).length = 4 := beBytes_length 4 p.length
  have lb6 : (beBytes 4 0).length = 4 := beBytes_length 4 0
  have hf : send_message_frame seq ts ty p =
      beBytes 8 seq ++ (beBytes 8 ts ++ (beBytes 2 42 ++ (beBytes 2 ty ++
        (beBytes 4 p.length ++ (beBytes 4 0 ++ (beBytes 4 0 ++ p)))))) := by
    simp [send_message_frame]
  -- tails after dropping each field boundary
  have d8 : (send_message_frame seq ts ty p).drop 8 =
      beBytes 8 ts ++ (beBytes 2 42 ++ (beBytes 2 ty ++
        (beBytes 4 p.length ++ (beBytes 4 0 ++ (beBytes 4 0 ++ p))))) := by
    rw [hf]; exact List.drop_left' lb1
  have d16 : (send_message_frame seq ts ty p).drop 16 =
      beBytes 2 42 ++ (beBytes 2 ty ++
        (beBytes 4 p.length ++ (beBytes 4 0 ++ (beBytes 4 0 ++ p)))) := by
    rw [hf, show (16:Nat) = 8 + 8 from rfl, drop_append_ge _ _ 8 8 lb1]
    exact List.drop_left' lb2
  have d18 : (send_message_frame seq ts ty p).drop 18 =
      beBytes 2 ty ++ (beBytes 4 p.length ++ (beBytes 4 0 ++ (beBytes 4 0 ++ p))) := by
    rw [hf, show (18:Nat) = 8 + 10 from rfl, drop_append_ge _ _ 8 10 lb1,
      show (10:Nat) = 8 + 2 from rfl, drop_append_ge _ _ 8 2 lb2]
    exact List.drop_left' lb3
  have d20 : (send_message_frame seq ts ty p).drop 20 =
      beBytes 4 p.length ++ (beBytes 4 0 ++ (beBytes 4 0 ++ p)) := by
    rw [hf, show (20:Nat) = 8 + 12 from rfl, drop_append_ge _ _ 8 12 lb1,
      show (12:Nat) = 8 + 4 from rfl, drop_append_ge _ _ 8 4 lb2,
      show (4:Nat) = 2 + 2 from rfl, drop_append_ge _ _ 2 2 lb3]
    exact List.drop_left' lb4
  have d24 : (send_message_frame seq ts ty p).drop 24 =
      beBytes 4 0 ++ (beBytes 4 0 ++ p) := by
    rw [hf, show (24:Nat) = 8 + 16 from rfl, drop_append_ge _ _ 8 16 lb1,
      show (16:Nat) = 8 + 8 from rfl, drop_append_ge _ _ 8 8 lb2,
      show (8:Nat) = 2 + 6 from rfl, drop_append_ge _ _ 2 6 lb3,
      show (6:Nat) = 2 + 4 from rfl, drop_append_ge _ _ 2 4 lb4]
    exact List.drop_left' lb5
  have d32 : (send_message_frame seq ts ty p).drop 32 = p := by
    rw [hf, show (32:Nat) = 8 + 24 from rfl, drop_append_ge _ _ 8 24 lb1,
      show (24:Nat) = 8 + 16 from rfl, drop_append_ge _ _ 8 16 lb2,
      show (16:Nat) = 2 + 14 from rfl, drop_append_ge _ _ 2 14 lb3,
      show (14:Nat) = 2 + 12 from rfl, drop_append_ge _ _ 2 12 lb4,
      show (12:Nat) = 4 + 8 from rfl, drop_append_ge _ _ 4 8 lb5,
      show (8:Nat) = 4 + 4 from rfl, drop_append_ge _ _ 4 4 lb6]
    exact List.drop_left' lb6
  refine ⟨?_, ?_, ?_, ?_, ?_, ?_, d32, ?_⟩
  · rw [unpackField, List.drop_zero, hf, List.take_left' lb1,
      beToNat_beBytes 8 seq hseq8]
  · rw [unpackField, d8, List.take_left' lb2, beToNat_beBytes 8 ts hts8]
  · rw [unpackField, d16, List.take_left' lb3, beToNat_beBytes 2 42 (by norm_num)]
  · rw [unpackField, d18, List.take_left' lb4, beToNat_beBytes 2 ty hty2]
  · rw [unpackField, d20, List.take_left' lb5, beToNat_beBytes 4 p.length hp4]
  · rw [d24, ← List.append_assoc]
    have hz : beBytes 4 0 ++ beBytes 4 0 = List.replicate 8 0 := by rfl
    have hzl : (beBytes 4 0 ++ beBytes 4 0).length = 8 := by rw [hz]; rfl
    rw [List.take_left' hzl, hz]
  · rw [hf]
    simp [List.length_append, lb1, lb2, lb3, lb4, lb5, lb6]
    omega

/-! ## Claim theorems about the framing protocol -/

/-- C2: Every frame emitted by `send_message` consists of a fixed 32-byte
header in network byte order — `sequence_id` (8 bytes), timestamp in
milliseconds (8 bytes), the constant magic 42 (2 bytes), type (2 bytes),
`payload_size` equal to the byte length of the payload (4 bytes), and 8
zero bytes of reserved padding — immediately followed by the payload
bytes. -/
theorem send_message_header_layout (st : TxState) (payload : List Nat)
    (ty timestamp : Nat) (hseq : st.msg_count_tx < 2 ^ 64)
    (hts : timestamp < 2 ^ 64) (hty : ty < 2 ^ 16)
    (hp : payload.length < 2 ^ 32) :
    ∃ frame, (send_message st payload ty timestamp).ws_queue = st.ws_queue ++ [frame] ∧
      frame.length = 32 + payload.length ∧
      unpackField frame 0 8 = st.msg_count_tx ∧
      unpackField frame 8 8 = timestamp ∧
      unpackField frame 16 2 = 42 ∧
      unpackField frame 18 2 = ty ∧
      unpackField frame 20 4 = payload.length ∧
      (frame.drop 24).take 8 = List.replicate 8 0 ∧
      frame.drop 32 = payload := by
  obtain ⟨f0, f8, f16, f18, f20, f24, f32, flen⟩ :=
    send_message_frame_fields st.msg_count_tx timestamp ty payload hseq hts hty hp
  exact ⟨send_message_frame st.msg_count_tx timestamp ty payload,
    rfl, flen, f0, f8, f16, f18, f20, f24, f32⟩

/-- Witness for C2 at a concrete state and payload. -/
theorem send_message_header_layout_witness :
    ∃ frame, (send_message ⟨3, []⟩ [7, 8] 2 1000).ws_queue = [] ++ [frame] ∧
      frame.length = 32 + ([7, 8] : List Nat).length ∧
      unpackField frame 0 8 = 3 ∧
      unpackField frame 8 8 = 1000 ∧
      unpackField frame 16 2 = 42 ∧
      unpackField frame 18 2 = 2 ∧
      unpackField frame 20 4 = ([7, 8] : List Nat).length ∧
      (frame.drop 24).take 8 = List.replicate 8 0 ∧
      frame.drop 32 = [7, 8] :=
  send_message_header_layout ⟨3, []⟩ [7, 8] 2 1000 (by decide) (by decide)
    (by decide) (by decide)

/-- Any binary message longer than 32 bytes with magic 42 is processed
past the header checks: the counter update happens first, so its new
value is the (possibly resynchronized) id plus one, whatever the payload
conversion then does. -/
theorem websocket_listener_step_accepted_fst {J : Type}
    (json_loads : List Nat → Option J) (rx : Nat) (bytes : List Nat)
    (hlen : 32 < bytes.length) (hmagic : unpackField bytes 16 2 = 42) :
    (websocket_listener_step json_loads rx (WsIncoming.binMsg bytes)).1 =
      (if unpackField bytes 0 8 ≠ rx then unpackField bytes 0 8 else rx) + 1 := by
  simp only [websocket_listener_step, if_neg (Nat.not_le.mpr hlen)]
  rw [if_neg (by simp [hmagic])]
  by_cases h0 : unpackField bytes 18 2 = 0
  · simp only [if_pos h0]
    cases json_loads (bytes.drop 32) <;> rfl
  · by_cases h1 : unpackField bytes 18 2 = 1
    · simp only [if_neg h0, if_pos h1]
      cases utf8Decode (bytes.drop 32) <;> rfl
    · simp only [if_neg h0, if_neg h1]

/-- A frame past the header checks is never dropped: it is delivered, or
the payload conversion raises — the `continue` paths are all before the
counter update. -/
theorem websocket_listener_step_accepted_not_dropped {J : Type}
    (json_loads : List Nat → Option J) (rx : Nat) (bytes : List Nat)
    (hlen : 32 < bytes.length) (hmagic : unpackField bytes 16 2 = 42) :
    (websocket_listener_step json_loads rx (WsIncoming.binMsg bytes)).2 ≠
      ListenerOutcome.dropped := by
  simp only [websocket_listener_step, if_neg (Nat.not_le.mpr hlen)]
  rw [if_neg (by simp [hmagic])]
  by_cases h0 : unpackField bytes 18 2 = 0
  · simp only [if_pos h0]
    cases json_loads (bytes.drop 32) <;> simp
  · by_cases h1 : unpackField bytes 18 2 = 1
    · simp only [if_neg h0, if_pos h1]
      cases utf8Decode (bytes.drop 32) <;> simp
    · simp only [if_neg h0, if_neg h1]
      simp

/-- A binary-type (≥ 2) frame past the header checks undergoes no payload
conversion and is always delivered with its raw payload bytes. -/
theorem websocket_listener_step_accepted_bin {J : Type}
    (json_loads : List Nat → Option J) (rx : Nat) (bytes : List Nat)
    (hlen : 32 < bytes.length) (hmagic : unpackField bytes 16 2 = 42)
    (hbin : 2 ≤ unpackField bytes 18 2) :
    (websocket_listener_step json_loads rx (WsIncoming.binMsg bytes)).2 =
      ListenerOutcome.delivered ⟨MsgPayload.binVal (bytes.drop 32),
        unpackField bytes 18 2, unpackField bytes 8 8⟩ := by
  have h0 : unpackField bytes 18 2 ≠ 0 := by omega
  have h1 : unpackField bytes 18 2 ≠ 1 := by omega
  simp only [websocket_listener_step, if_neg (Nat.not_le.mpr hlen)]
  rw [if_neg (by simp [hmagic])]
  simp only [if_neg h0, if_neg h1]

/-- C1 as stated is false at two sender-produced frames: the size-0 frame
is exactly 32 bytes and is dropped by the `len(msg) <= header_size`
guard, and the size-1 type-1 frame with payload byte 0xFF passes every
header check but raises `UnicodeDecodeError` at `payload.decode('utf-8')`
— in neither case is `on_message` invoked. -/
theorem size_zero_or_invalid_utf8_frame_not_delivered :
    websocket_listener_step (fun _ => (none : Option Unit)) 0
      (WsIncoming.binMsg (send_message_frame 0 5 2 [])) =
      (0, ListenerOutcome.dropped) ∧
    websocket_listener_step (fun _ => (none : Option Unit)) 0
      (WsIncoming.binMsg (send_message_frame 0 5 1 [255])) =
      (0 + 1, ListenerOutcome.raised) := by decide

/-- C1 (amended): for every `send_message` frame with nonempty payload
(e.g. sizes 1 and 65536) the listener recovers the packed `sequence_id`,
and for binary-type frames (type ≥ 2, whose payload undergoes no
json/utf-8 conversion) it advances the expected counter to that id plus
one and delivers the exact payload bytes, type and timestamp to the
message handler. -/
theorem send_recv_roundtrip {J : Type} (json_loads : List Nat → Option J)
    (rx seq ts ty : Nat) (p : List Nat)
    (hseq : seq < 2 ^ 64) (hts : ts < 2 ^ 64) (hty : ty < 2 ^ 16)
    (hp : p.length < 2 ^ 32) (hne : p ≠ []) (hbin : 2 ≤ ty) :
    unpackField (send_message_frame seq ts ty p) 0 8 = seq ∧
    websocket_listener_step json_loads rx
        (WsIncoming.binMsg (send_message_frame seq ts ty p)) =
      (seq + 1, ListenerOutcome.delivered ⟨MsgPayload.binVal p, ty, ts⟩) := by
  obtain ⟨f0, f8, f16, f18, f20, f24, f32, flen⟩ :=
    send_message_frame_fields seq ts ty p hseq hts hty hp
  have hlen : 32 < (send_message_frame seq ts ty p).length := by
    have hpos : 0 < p.length := List.length_pos.mpr hne
    omega
  have hbin2 : 2 ≤ unpackField (send_message_frame seq ts ty p) 18 2 := by
    rw [f18]; exact hbin
  refine ⟨f0, Prod.ext ?_ ?_⟩
  · rw [websocket_listener_step_accepted_fst json_loads rx _ hlen f16, f0]
    by_cases h : seq = rx <;> simp [h]
  · rw [websocket_listener_step_accepted_bin json_loads rx _ hlen f16 hbin2,
      f8, f18, f32]

/-- Witness for C1 (amended) at payload `[7]` of size 1. -/
theorem send_recv_roundtrip_witness :
    unpackField (send_message_frame 0 5 2 [7]) 0 8 = 0 ∧
    websocket_listener_step (fun _ => (none : Option Unit)) 0
      (WsIncoming.binMsg (send_message_frame 0 5 2 [7])) =
      (0 + 1, ListenerOutcome.delivered ⟨MsgPayload.binVal [7], 2, 5⟩) :=
  send_recv_roundtrip (fun _ => (none : Option Unit)) 0 0 5 2 [7] (by decide)
    (by decide) (by decide) (by decide) (by decide) (by decide)

/-- C4: a frame whose magic field differs from 42 is rejected: the listener
continues its loop without raising, `msg_count_rx` is unchanged and the
message handler is not invoked (the magic check precedes the counter
update and the payload conversion). -/
theorem websocket_listener_rejects_bad_magic {J : Type}
    (json_loads : List Nat → Option J) (rx : Nat) (bytes : List Nat)
    (hlen : 32 < bytes.length) (hmagic : unpackField bytes 16 2 ≠ 42) :
    websocket_listener_step json_loads rx (WsIncoming.binMsg bytes) =
      (rx, ListenerOutcome.dropped) := by
  simp only [websocket_listener_step, if_neg (Nat.not_le.mpr hlen), if_pos hmagic]

/-- Witness for C4: a 33-byte all-zero message has magic 0. -/
theorem websocket_listener_rejects_bad_magic_witness :
    websocket_listener_step (fun _ => (none : Option Unit)) 7
      (WsIncoming.binMsg (List.replicate 33 0)) = (7, ListenerOutcome.dropped) :=
  websocket_listener_rejects_bad_magic (fun _ => (none : Option Unit)) 7
    (List.replicate 33 0) (by decide) (by decide)

/-- A concrete frame whose declared `payload_size` (5) disagrees with its
actual trailing byte count (1). -/
def size_mismatch_frame : List Nat :=
  beBytes 8 0 ++ beBytes 8 9 ++ beBytes 2 42 ++ beBytes 2 3 ++ beBytes 4 5 ++
    beBytes 4 0 ++ beBytes 4 0 ++ [7]

/-- C5 as stated is false: a (binary-type) frame whose declared
`payload_size` (5) differs from the actual trailing byte count (1) is
still delivered to the message handler — the listener only logs the
mismatch and does not drop the frame. -/
theorem size_mismatch_frame_still_delivered :
    unpackField size_mismatch_frame 20 4 = 5 ∧
    (size_mismatch_frame.drop 32).length = 1 ∧
    websocket_listener_step (fun _ => (none : Option Unit)) 0
      (WsIncoming.binMsg size_mismatch_frame) =
      (0 + 1, ListenerOutcome.delivered ⟨MsgPayload.binVal [7], 3, 9⟩) := by decide

/-- C5 (amended): a declared/actual `payload_size` mismatch is only
logged, never grounds for dropping: the expected counter still advances
and processing continues to the type-directed payload conversion — a
binary-type frame is still delivered to the message handler unchanged,
and a type-0/1 frame is delivered exactly when its payload converts (a
conversion failure raises, killing that connection's listener thread,
while the process and the connection's sender stay alive). -/
theorem websocket_listener_logs_but_delivers_on_size_mismatch {J : Type}
    (json_loads : List Nat → Option J) (rx : Nat) (bytes : List Nat)
    (hlen : 32 < bytes.length) (hmagic : unpackField bytes 16 2 = 42)
    (_hmm : unpackField bytes 20 4 ≠ bytes.length - 32) :
    (websocket_listener_step json_loads rx (WsIncoming.binMsg bytes)).1 =
      (if unpackField bytes 0 8 ≠ rx then unpackField bytes 0 8 else rx) + 1 ∧
    (websocket_listener_step json_loads rx (WsIncoming.binMsg bytes)).2 ≠
      ListenerOutcome.dropped ∧
    (2 ≤ unpackField bytes 18 2 →
      (websocket_listener_step json_loads rx (WsIncoming.binMsg bytes)).2 =
        ListenerOutcome.delivered ⟨MsgPayload.binVal (bytes.drop 32),
          unpackField bytes 18 2, unpackField bytes 8 8⟩) :=
  ⟨websocket_listener_step_accepted_fst json_loads rx bytes hlen hmagic,
    websocket_listener_step_accepted_not_dropped json_loads rx bytes hlen hmagic,
    fun hbin =>
      websocket_listener_step_accepted_bin json_loads rx bytes hlen hmagic hbin⟩

/-- Witness for C5 (amended) on the concrete mismatching binary frame. -/
theorem websocket_listener_size_mismatch_witness :
    (websocket_listener_step (fun _ => (none : Option Unit)) 0
        (WsIncoming.binMsg size_mismatch_frame)).1 =
      (if unpackField size_mismatch_frame 0 8 ≠ 0 then
        unpackField size_mismatch_frame 0 8 else 0) + 1 ∧
    (websocket_listener_step (fun _ => (none : Option Unit)) 0
        (WsIncoming.binMsg size_mismatch_frame)).2 ≠ ListenerOutcome.dropped ∧
    (2 ≤ unpackField size_mismatch_frame 18 2 →
      (websocket_listener_step (fun _ => (none : Option Unit)) 0
          (WsIncoming.binMsg size_mismatch_frame)).2 =
        ListenerOutcome.delivered ⟨MsgPayload.binVal (size_mismatch_frame.drop 32),
          unpackField size_mismatch_frame 18 2,
          unpackField size_mismatch_frame 8 8⟩) :=
  websocket_listener_logs_but_delivers_on_size_mismatch
    (fun _ => (none : Option Unit)) 0 size_mismatch_frame (by decide) (by decide)
    (by decide)

/-- C6 as stated is false: an out-of-order type-1 frame whose payload byte
0xFF is invalid UTF-8 does get the expected counter resynchronized to its
id plus one, but `payload.decode('utf-8')` then raises, so the frame is
never delivered to the message handler. -/
theorem out_of_order_undecodable_frame_not_delivered :
    websocket_listener_step (fun _ => (none : Option Unit)) 0
      (WsIncoming.binMsg (send_message_frame 5 9 1 [255])) =
      (5 + 1, ListenerOutcome.raised) := by decide

/-- C6 (amended): an out-of-order `sequence_id` is never grounds for
rejection: the listener resynchronizes the expected counter to the
received id and increments it (the expected-next id afterwards is the
received id plus one), logs the gap, and proceeds — the frame is not
dropped, and a binary-type frame is still delivered to the message
handler (a type-0/1 frame is delivered exactly when its payload
converts; a conversion failure raises after the resynchronization and
the handler is not invoked). -/
theorem websocket_listener_resyncs_out_of_order {J : Type}
    (json_loads : List Nat → Option J) (rx : Nat) (bytes : List Nat)
    (hlen : 32 < bytes.length) (hmagic : unpackField bytes 16 2 = 42)
    (hooo : unpackField bytes 0 8 ≠ rx) :
    (websocket_listener_step json_loads rx (WsIncoming.binMsg bytes)).1 =
      unpackField bytes 0 8 + 1 ∧
    (websocket_listener_step json_loads rx (WsIncoming.binMsg bytes)).2 ≠
      ListenerOutcome.dropped ∧
    (2 ≤ unpackField bytes 18 2 →
      (websocket_listener_step json_loads rx (WsIncoming.binMsg bytes)).2 =
        ListenerOutcome.delivered ⟨MsgPayload.binVal (bytes.drop 32),
          unpackField bytes 18 2, unpackField bytes 8 8⟩) := by
  refine ⟨?_,
    websocket_listener_step_accepted_not_dropped json_loads rx bytes hlen hmagic,
    fun hbin =>
      websocket_listener_step_accepted_bin json_loads rx bytes hlen hmagic hbin⟩
  rw [websocket_listener_step_accepted_fst json_loads rx bytes hlen hmagic,
    if_pos hooo]

/-- Witness for C6 (amended): a binary frame with `sequence_id` 5 arriving
when 0 was expected resynchronizes the counter to 6 and is delivered. -/
theorem websocket_listener_resync_witness :
    (websocket_listener_step (fun _ => (none : Option Unit)) 0
        (WsIncoming.binMsg (send_message_frame 5 9 2 [7]))).1 =
      unpackField (send_message_frame 5 9 2 [7]) 0 8 + 1 ∧
    (websocket_listener_step (fun _ => (none : Option Unit)) 0
        (WsIncoming.binMsg (send_message_frame 5 9 2 [7]))).2 ≠
      ListenerOutcome.dropped ∧
    (2 ≤ unpackField (send_message_frame 5 9 2 [7]) 18 2 →
      (websocket_listener_step (fun _ => (none : Option Unit)) 0
          (WsIncoming.binMsg (send_message_frame 5 9 2 [7]))).2 =
        ListenerOutcome.delivered
          ⟨MsgPayload.binVal ((send_message_frame 5 9 2 [7]).drop 32),
            unpackField (send_message_frame 5 9 2 [7]) 18 2,
            unpackField (send_message_frame 5 9 2 [7]) 8 8⟩) :=
  websocket_listener_resyncs_out_of_order (fun _ => (none : Option Unit)) 0
    (send_message_frame 5 9 2 [7]) (by decide) (by decide) (by decide)

/-! ## Connection setup and sender loop (`WebServer.on_websocket`)

On a new connection the handler first empties `ws_queue` (`get(block=False)`
until `queue.Empty`), then starts the listener thread and loops sending
`ws_queue.get()`. -/

/-- The queue-emptying loop at the top of `on_websocket`: repeatedly
`get` until the queue is empty; returns what is left in the queue. -/
def drain_ws_queue : List (List Nat) → List (List Nat)
  | [] => []
  | _ :: rest => drain_ws_queue rest

theorem drain_ws_queue_empties (q : List (List Nat)) : drain_ws_queue q = [] := by
  induction q with
  | nil => rfl
  | cons _ rest ih => simpa [drain_ws_queue] using ih

/-- The frames `on_websocket` sends to a client: the queue is drained at
connection setup, after which the sender loop transmits, in FIFO order,
whatever remains plus every frame enqueued after the connection existed. -/
def on_websocket_sent (queue_at_connect enqueued_after : List (List Nat)) :
    List (List Nat) :=
  drain_ws_queue queue_at_connect ++ enqueued_after

/-- C7: frames enqueued on `ws_queue` before a websocket connection is
accepted are discarded during connection setup and never reach the new
client; the client receives exactly the frames enqueued afterwards. -/
theorem stale_frames_discarded_on_connect (pre post : List (List Nat)) :
    on_websocket_sent pre post = post ∧
    ∀ f ∈ on_websocket_sent pre post, f ∈ post := by
  have h : on_websocket_sent pre post = post := by
    rw [on_websocket_sent, drain_ws_queue_empties, List.nil_append]
  exact ⟨h, fun f hf => h ▸ hf⟩

/-! ## The Ctrl+C handler (`on_interrupt` in `__main__.py`)

`time.perf_counter` readings and their differences are modelled over `ℚ`,
where the source's float literals `2.0` and `0.5` are exact. -/

/-- What a delivered interrupt is classified as: `abortChat` mutes the
current reply (`interrupt_chat = True`); `terminate` is the
`sys.exit(0)` branch. -/
inductive InterruptAction where
  | abortChat
  | terminate
  deriving Repr, DecidableEq

/-- The handler's process-wide state: `last_interrupt` (initialized to
`0.0`) and the `interrupt_chat` flag. -/
structure InterruptState where
  last_interrupt : ℚ
  interrupt_chat : Bool
  deriving Repr, DecidableEq

/-- `on_interrupt`: store the current clock reading, then classify — a gap
of more than 2 seconds since the previous interrupt aborts the chat
(setting `interrupt_chat`), anything within the window exits the
process. -/
def on_interrupt (curr_time : ℚ) (st : InterruptState) :
    InterruptState × InterruptAction :=
  let time_diff := curr_time - st.last_interrupt
  if time_diff > 2 then
    ({ last_interrupt := curr_time, interrupt_chat := true },
      InterruptAction.abortChat)
  else
    ({ last_interrupt := curr_time, interrupt_chat := st.interrupt_chat },
      InterruptAction.terminate)

/-- C3: of two interrupts 0.5 s apart whose first arrives more than 2 s
after any previous interrupt, the first is classified as an abort request
(setting `interrupt_chat`) and the second as a process-termination
request, whatever the value of the abort flag at that moment. -/
theorem double_interrupt_classification (last0 t1 : ℚ) (b0 : Bool)
    (h1 : t1 - last0 > 2) :
    (on_interrupt t1 ⟨last0, b0⟩).2 = InterruptAction.abortChat ∧
    (on_interrupt t1 ⟨last0, b0⟩).1.interrupt_chat = true ∧
    ∀ b1 : Bool,
      (on_interrupt (t1 + 1/2)
        ⟨(on_interrupt t1 ⟨last0, b0⟩).1.last_interrupt, b1⟩).2 =
        InterruptAction.terminate := by
  have hfirst : on_interrupt t1 ⟨last0, b0⟩ =
      ({ last_interrupt := t1, interrupt_chat := true },
        InterruptAction.abortChat) := by
    rw [on_interrupt]
    simp only [if_pos h1]
  refine ⟨by rw [hfirst], by rw [hfirst], fun b1 => ?_⟩
  rw [hfirst]
  show (on_interrupt (t1 + 1/2) ⟨t1, b1⟩).2 = InterruptAction.terminate
  have hdiff : ¬ (t1 + 1/2 - t1 > 2) := by
    have : t1 + 1/2 - t1 = 1/2 := by ring
    rw [this]
    norm_num
  rw [on_interrupt]
  simp only [if_neg hdiff]

/-- Witness for C3: previous interrupt at 0, first interrupt at clock 3,
second at 3.5. -/
theorem double_interrupt_classification_witness :
    (on_interrupt 3 ⟨0, false⟩).2 = InterruptAction.abortChat ∧
    (on_interrupt 3 ⟨0, false⟩).1.interrupt_chat = true ∧
    ∀ b1 : Bool,
      (on_interrupt (3 + 1/2)
        ⟨(on_interrupt 3 ⟨0, false⟩).1.last_interrupt, b1⟩).2 =
        InterruptAction.terminate :=
  double_interrupt_classification 0 3 false (by norm_num)

/-- C10: because `last_interrupt` starts at `0.0`, the very first
interrupt is classified against the absolute clock: if it arrives when
the monotonic clock reads 2.0 s or less, the handler takes the
process-termination branch instead of the abort branch. -/
theorem first_interrupt_early_clock_terminates (t : ℚ) (b : Bool)
    (h : t ≤ 2) :
    (on_interrupt t ⟨0, b⟩).2 = InterruptAction.terminate := by
  have hdiff : ¬ (t - 0 > 2) := by
    rw [sub_zero]
    exact not_lt.mpr h
  rw [on_interrupt]
  simp only [if_neg hdiff]

/-- Witness for C10 at a first interrupt arriving when the clock reads 1. -/
theorem first_interrupt_early_clock_terminates_witness :
    (on_interrupt 1 ⟨0, false⟩).2 = InterruptAction.terminate :=
  first_interrupt_early_clock_terminates 1 false (by norm_num)

/-! ## The chat loop of `__main__.py` -/

/-- The `StreamingResponse` iterator returned by `model.generate`: the
token strings it yields, the full reply `output_text`, and the
`kv_cache` produced by this generation (`α` keeps the backend's cache
handle opaque). -/
structure StreamingResponse (α : Type) where
  tokens : List String
  output_text : String
  kv_cache : α

/-- The chat-loop state the generation block touches: the history's
`kv_cache` handle (`None` before the first generation) and the bot
reply text being filled in. -/
structure ChatLoopState (α : Type) where
  kv_cache : Option α
  bot_text : String

/-- The streaming `for token in output` loop: append each token to
`bot_reply.text`; if `interrupt_chat` is observed set after a token
(`flag i` gives its value at that iteration), stop the output and break. -/
def stream_tokens : List String → (Nat → Bool) → Nat → String → String
  | [], _, _, acc => acc
  | tok :: rest, flag, i, acc =>
    if flag i then acc ++ tok
    else stream_tokens rest flag (i + 1) (acc ++ tok)

/-- The tail of one chat-loop iteration, from consuming `output` to the
final bookkeeping: stream (or print whole) the reply, then
`chat_history.kv_cache = output.kv_cache` and
`bot_reply.text = output.output_text`. -/
def chat_loop_generation {α : Type} (no_streaming : Bool)
    (out : StreamingResponse α) (flag : Nat → Bool) (st : ChatLoopState α) :
    ChatLoopState α :=
  let st1 :=
    if no_streaming then { st with bot_text := out.output_text }
    else { st with bot_text := stream_tokens out.tokens flag 0 "" }
  let st2 := { st1 with kv_cache := some out.kv_cache }
  { st2 with bot_text := out.output_text }

/-- C8: after every generation — run to completion or aborted by an
interrupt mid-stream, streaming or not — the chat history's `kv_cache`
is the handle produced by that generation, independent of (not merged
with) whatever handle the history held before. -/
theorem kv_cache_replaced_after_generation {α : Type} (no_streaming : Bool)
    (out : StreamingResponse α) (flag : Nat → Bool) (st : ChatLoopState α) :
    (chat_loop_generation no_streaming out flag st).kv_cache = some out.kv_cache := by
  rw [chat_loop_generation]

/-! ## Multimodal entries in the chat loop (`__main__.py`) and `embed_chat` -/

/-- The presence of content parts in one chat entry, as the loop tests
them: `'image' in entry`, `'text' in entry`. -/
structure ChatEntry where
  has_image : Bool
  has_text : Bool
  deriving Repr, DecidableEq

/-- What one loop iteration does right after `append`: either `continue`
without embedding or generating, or proceed to `embed_chat` and
`generate`. -/
inductive ChatLoopAction where
  | skip
  | embed_and_generate
  deriving Repr, DecidableEq

/-- The guard in the chat loop: `if 'image' in entry and 'text' not in
entry: continue` — an image entry still awaiting its text prompt is
skipped, otherwise the loop embeds and generates. -/
def chat_loop_route (entry : ChatEntry) : ChatLoopAction :=
  if entry.has_image && !entry.has_text then ChatLoopAction.skip
  else ChatLoopAction.embed_and_generate

/-- Failure of `embed()` on an incomplete multimodal entry. -/
inductive EmbedError where
  | IncompleteEntry
  deriving Repr, DecidableEq

/-- Modelled from the spec: `ChatHistory.embed_chat` lives in the
`local_llm` chat module, which is not among the source files here (only
its caller in `__main__.py` is).  Per the spec, `embed()` computes the
pending embeddings but "Fails with `IncompleteEntry` if the tail entry
is an image-only entry awaiting text". -/
def embed_chat (history : List ChatEntry) : Except EmbedError Unit :=
  match history.getLast? with
  | some e =>
    if e.has_image && !e.has_text then Except.error EmbedError.IncompleteEntry
    else Except.ok ()
  | none => Except.ok ()

/-- C9: an entry consisting solely of an image part is never embedded or
generated from: the chat loop skips it, and `embed_chat` on a history
ending in it fails with `IncompleteEntry` — whereas once a text part is
added to that same entry, the loop proceeds and `embed_chat` succeeds. -/
theorem image_only_entry_never_embedded (hist : List ChatEntry)
    (e : ChatEntry) (himg : e.has_image = true) (htxt : e.has_text = false) :
    chat_loop_route e = ChatLoopAction.skip ∧
    embed_chat (hist ++ [e]) = Except.error EmbedError.IncompleteEntry ∧
    chat_loop_route { e with has_text := true } = ChatLoopAction.embed_and_generate ∧
    embed_chat (hist ++ [{ e with has_text := true }]) = Except.ok () := by
  have hlast : (hist ++ [e]).getLast? = some e := by
    simp [List.getLast?_concat]
  have hlast2 : (hist ++ [{ e with has_text := true }]).getLast? =
      some { e with has_text := true } := by
    simp [List.getLast?_concat]
  refine ⟨?_, ?_, ?_, ?_⟩
  · rw [chat_loop_route, if_pos (by rw [himg, htxt]; rfl)]
  · rw [embed_chat, hlast]
    simp [himg, htxt]
  · rw [chat_loop_route]
    simp
  · rw [embed_chat, hlast2]
    simp

/-- Witness for C9: the bare image entry. -/
theorem image_only_entry_never_embedded_witness :
    chat_loop_route ⟨true, false⟩ = ChatLoopAction.skip ∧
    embed_chat ([] ++ [(⟨true, false⟩ : ChatEntry)]) =
      Except.error EmbedError.IncompleteEntry ∧
    chat_loop_route { (⟨true, false⟩ : ChatEntry) with has_text := true } =
      ChatLoopAction.embed_and_generate ∧
    embed_chat ([] ++ [{ (⟨true, false⟩ : ChatEntry) with has_text := true }]) =
      Except.ok () :=
  image_only_entry_never_embedded [] ⟨true, false⟩ rfl rfl

end LocalLLM
